import Mathlib

/-!
Shallow embedding of the identity and access-control subsystem of the
repport helpdesk backend (src/backend/app): the `User` model
(app/models/user.py), the password hashing helpers (app/core/security.py,
a passlib `CryptContext` restricted to bcrypt with ident "2b" and 12
rounds), and the auth endpoints of app/api/auth.py (forgot-password,
reset-password, change-password, profile update, promote/demote, admin
user reads).  Database state is a list of user rows; endpoint handlers
are functions from a store (plus the request arguments and the fresh
randomness the handler draws) to a new store and an `Except` result
mirroring the HTTP response or the raised exception.
-/

namespace Repport

/-- Python-level exceptions / HTTP error responses that the handlers can
produce.  `http` carries the status code and the `detail` string of a
raised `HTTPException`; `attributeError` models a Python
`AttributeError` escaping the handler (surfaced as a 500 by the
framework); `valueError` models a raised `ValueError`. -/
inductive ApiError where
  | http (statusCode : Nat) (detail : String)
  | attributeError (attr : String)
  | valueError (msg : String)
  | unknownHashError
deriving DecidableEq, Repr

/-- A row of the `users` table (app/models/user.py, class `User`).
Timestamps are abstracted to naturals; `id` is the integer primary
key. -/
structure User where
  id : Nat
  email : String
  hashed_password : String
  is_active : Bool
  is_superuser : Bool
  is_verified : Bool
  verification_token : Option String
  reset_token : Option String
  created_at : Nat
  updated_at : Nat
  full_name : Option String
deriving DecidableEq, Repr

/-- The database: the `users` table. -/
structure Store where
  users : List User
deriving DecidableEq, Repr

/-- `select(User).where(User.email == email)` + `scalar_one_or_none()`. -/
def findByEmail (st : Store) (email : String) : Option User :=
  st.users.find? (fun u => u.email == email)

/-- `select(User).where(User.id == uid)` + `scalar_one_or_none()`. -/
def findById (st : Store) (uid : Nat) : Option User :=
  st.users.find? (fun u => u.id == uid)

/-- `select(User).where(User.reset_token == token)` + `scalar_one_or_none()`. -/
def findByResetToken (st : Store) (token : String) : Option User :=
  st.users.find? (fun u => u.reset_token == some token)

/-- `session.add(user); session.commit()` for a row loaded from the
store: the row with the same primary key is replaced. -/
def putUser (st : Store) (u : User) : Store :=
  ⟨st.users.map (fun v => if v.id == u.id then u else v)⟩

/-! ## Password hashing (app/core/security.py)

`pwd_context = CryptContext(schemes=["bcrypt"], bcrypt__rounds=12,
bcrypt__ident="2b")`.  The bcrypt digest is modelled as an ideal
collision-free digest of the *truncated* plaintext: real bcrypt feeds
only the first 72 bytes of the password into the key schedule, and
passlib's bcrypt handler silently truncates longer secrets (its
`truncate_error` flag is left at the default).  One-wayness is not a
property under study, so the model represents the digest by the
truncated plaintext itself; the salt is an arbitrary natural drawn by
the caller, encoded injectively.  A stored hash string is
`"$2b$12$" ++ digest ++ "$" ++ salt-mark`, and `pwd_context.verify`
first identifies the hash format, raising `UnknownHashError` when the
string is not recognised as a bcrypt hash. -/

/-- Number of password bytes that take part in the bcrypt digest. -/
def BCRYPT_TRUNCATE : Nat := 72

/-- The fixed prefix every hash produced by this context carries
(algorithm ident "2b" and the configured 12 rounds). -/
def bcryptPrefix : List Char := "$2b$12$".toList

/-- Injective, digit-only encoding of the model salt (stands in for the
22-character base64 salt field of a real bcrypt hash; it never contains
the separator character). -/
def saltChars (salt : Nat) : List Char :=
  List.replicate (salt + 1) '0'

/-- `get_password_hash` (security.py line 38): `pwd_context.hash`. -/
def get_password_hash (salt : Nat) (password : String) : String :=
  ⟨bcryptPrefix ++ password.toList.take BCRYPT_TRUNCATE ++ '$' :: saltChars salt⟩

/-- passlib's hash identification step: recover the digest part of a
well-formed hash of this context, or `none` when the string is not a
recognisable bcrypt hash. -/
def parseBcryptDigest (h : String) : Option (List Char) :=
  let cs := h.toList
  if cs.take 7 = bcryptPrefix then
    let rev := (cs.drop 7).reverse
    let saltRev := rev.takeWhile (fun c => c ≠ '$')
    match rev.drop saltRev.length with
    | '$' :: digestRev => some digestRev.reverse
    | _ => none
  else none

/-- The exception `passlib.exc.UnknownHashError` that
`CryptContext.verify` raises when the hash string cannot be identified. -/
inductive HashError where
  | unknownHash
deriving DecidableEq, Repr

/-- `verify_password` (security.py line 34): `pwd_context.verify`,
returning the comparison of the recomputed digest with the stored one,
or raising `UnknownHashError` on a malformed hash.  No exception
handling in security.py: the error propagates to the caller. -/
def verify_password (plain : String) (hashed : String) : Except HashError Bool :=
  match parseBcryptDigest hashed with
  | none => .error .unknownHash
  | some digest => .ok (digest == plain.toList.take BCRYPT_TRUNCATE)

/-! ### Round-trip facts about the hash format -/

theorem takeWhile_replicate_append (n : Nat) (l : List Char) :
    (List.replicate n '0' ++ '$' :: l).takeWhile (fun c => c ≠ '$') = List.replicate n '0' := by
  induction n with
  | zero => simp [List.takeWhile]
  | succ k ih => simp [List.replicate_succ, List.takeWhile_cons, ih]

/-- Identifying a hash freshly produced by `get_password_hash` recovers
exactly the digest of the truncated plaintext. -/
theorem parseBcryptDigest_hash (salt : Nat) (p : String) :
    parseBcryptDigest (get_password_hash salt p) = some (p.toList.take BCRYPT_TRUNCATE) := by
  have hlist : (get_password_hash salt p).toList =
      bcryptPrefix ++ (p.toList.take BCRYPT_TRUNCATE ++ '$' :: saltChars salt) := by
    simp [get_password_hash, String.toList]
  have h1 : List.take 7 (bcryptPrefix ++ (p.toList.take BCRYPT_TRUNCATE ++ '$' :: saltChars salt)) =
      bcryptPrefix := by
    rw [show (7 : Nat) = bcryptPrefix.length by decide, List.take_left]
  have h2 : List.drop 7 (bcryptPrefix ++ (p.toList.take BCRYPT_TRUNCATE ++ '$' :: saltChars salt)) =
      p.toList.take BCRYPT_TRUNCATE ++ '$' :: saltChars salt := by
    rw [show (7 : Nat) = bcryptPrefix.length by decide, List.drop_left]
  have hrev : (p.toList.take BCRYPT_TRUNCATE ++ '$' :: saltChars salt).reverse =
      List.replicate (salt + 1) '0' ++ '$' :: (p.toList.take BCRYPT_TRUNCATE).reverse := by
    simp [saltChars, List.reverse_append, List.reverse_replicate]
  have htw := takeWhile_replicate_append (salt + 1) ((p.toList.take BCRYPT_TRUNCATE).reverse)
  have h3 : List.drop (salt + 1)
      (List.replicate (salt + 1) '0' ++ '$' :: (p.toList.take BCRYPT_TRUNCATE).reverse) =
      '$' :: (p.toList.take BCRYPT_TRUNCATE).reverse := by
    have h := List.drop_left (List.replicate (salt + 1) '0')
      ('$' :: (p.toList.take BCRYPT_TRUNCATE).reverse)
    rw [List.length_replicate] at h
    exact h
  unfold parseBcryptDigest
  rw [hlist]
  simp only []
  rw [h1, if_pos rfl, h2, hrev, htw, List.length_replicate, h3]
  simp

/-! ## Claims C10 and C8 — the hashing contract -/

/-- Claim C10, counterexample.  The claim states that for every two
distinct passwords p and p', `verify(p, hash(p'))` returns false.  It
fails on the code: bcrypt only digests the first 72 bytes of the
secret, and passlib's bcrypt handler silently truncates longer secrets,
so a 73-character password verifies successfully against the hash of
the distinct 72-character password that is its prefix. -/
theorem verify_accepts_distinct_truncated_password :
    (String.mk (List.replicate 73 'a')) ≠ (String.mk (List.replicate 72 'a')) ∧
    verify_password (String.mk (List.replicate 73 'a'))
      (get_password_hash 0 (String.mk (List.replicate 72 'a'))) = .ok true := by
  constructor
  · intro h
    have h' : (String.mk (List.replicate 73 'a')).toList.length =
        (String.mk (List.replicate 72 'a')).toList.length := by rw [h]
    simp [String.toList] at h'
  · rw [verify_password, parseBcryptDigest_hash]
    simp [String.toList, List.take_replicate, BCRYPT_TRUNCATE]

/-- Claim C10, amended.  `verify(p, hash(p))` returns true for every
password p; and `verify(p, hash(p'))` returns false whenever p and p'
differ within their first 72 characters (the part of the secret bcrypt
actually digests).  The original universally-quantified mismatch claim
only fails for pairs that agree on their first 72 characters. -/
theorem hash_verify_roundtrip :
    (∀ (salt : Nat) (p : String),
      verify_password p (get_password_hash salt p) = .ok true) ∧
    (∀ (salt : Nat) (p q : String),
      p.toList.take BCRYPT_TRUNCATE ≠ q.toList.take BCRYPT_TRUNCATE →
      verify_password p (get_password_hash salt q) = .ok false) := by
  constructor
  · intro salt p
    rw [verify_password, parseBcryptDigest_hash]
    simp
  · intro salt p q hne
    rw [verify_password, parseBcryptDigest_hash]
    simp only [Except.ok.injEq, beq_eq_false_iff_ne, ne_eq]
    intro h
    exact hne h.symm

/-- Witness for `hash_verify_roundtrip` at concrete passwords. -/
theorem hash_verify_roundtrip_witness :
    verify_password "alphapassword" (get_password_hash 3 "alphapassword") = .ok true ∧
    verify_password "alphapassword" (get_password_hash 3 "betapassword") = .ok false :=
  ⟨hash_verify_roundtrip.1 3 "alphapassword",
   hash_verify_roundtrip.2 3 "alphapassword" "betapassword" (by decide)⟩

/-- Claim C8, counterexample.  The claim states that `verify_password`
never throws and returns false on a malformed hash.  In the code,
`pwd_context.verify` raises `passlib.exc.UnknownHashError` when the
hashed-password argument is not a recognisable bcrypt hash, and
security.py's `verify_password` does not catch it, so the call raises
instead of returning false. -/
theorem verify_password_raises_on_malformed :
    verify_password "password123" "nothash" = .error .unknownHash := by
  rfl

/-- Claim C8, amended.  `verify_password` returns a boolean for every
well-formed bcrypt hash; on a hash string the context cannot identify
it raises `UnknownHashError` (propagated to the caller) rather than
returning false. -/
theorem verify_password_total_on_wellformed (p h : String) :
    (parseBcryptDigest h = none → verify_password p h = .error .unknownHash) ∧
    (∀ d, parseBcryptDigest h = some d →
      verify_password p h = .ok (d == p.toList.take BCRYPT_TRUNCATE)) := by
  constructor
  · intro hnone
    rw [verify_password, hnone]
  · intro d hsome
    rw [verify_password, hsome]

/-- Witness for `verify_password_total_on_wellformed`: the malformed
branch at a concrete malformed hash and the well-formed branch at a
concrete produced hash. -/
theorem verify_password_total_on_wellformed_witness :
    verify_password "pw" "sha256:deadbeef" = .error .unknownHash ∧
    verify_password "pw" (get_password_hash 1 "otherpw") =
      .ok (("otherpw".toList.take BCRYPT_TRUNCATE) == ("pw".toList.take BCRYPT_TRUNCATE)) :=
  ⟨(verify_password_total_on_wellformed "pw" "sha256:deadbeef").1 rfl,
   (verify_password_total_on_wellformed "pw" (get_password_hash 1 "otherpw")).2
     ("otherpw".toList.take BCRYPT_TRUNCATE) (parseBcryptDigest_hash 1 "otherpw")⟩

/-! ## Configuration and email collaborator

`Settings` (app/core/config.py) declares the fields below and no
others; in particular it declares **no** `ENVIRONMENT` field, while
app/api/auth.py reads `settings.ENVIRONMENT` in two places (the
missing-password fallback of `UserManager.create`, line 130, and the
email-failure branch of `forgot_password`, line 275).  In Python an
attribute access on a pydantic settings object for an undeclared field
raises `AttributeError`. -/
structure Settings where
  API_V1_STR : String
  PROJECT_NAME : String
  SECRET_KEY : String
  ACCESS_TOKEN_EXPIRE_MINUTES : Nat
  DATABASE_URL : String
  DB_POOL_SIZE : Nat
  DB_MAX_OVERFLOW : Nat
  DB_POOL_TIMEOUT : Nat
  DB_POOL_RECYCLE : Nat
  RESEND_API_KEY : String
  MAIL_FROM : String
  BACKEND_CORS_ORIGINS_STR : String

/-- Evaluation of the expression `settings.ENVIRONMENT`: `Settings`
has no such field, so the access raises `AttributeError`. -/
def settingsEnvironment : Except ApiError String :=
  .error (.attributeError "ENVIRONMENT")

/-- What happened inside `send_email` (app/core/email.py) for one
delivery attempt: the Resend client is missing, the send succeeded, the
send raised `AttributeError` (answered with a mock response), or the
send raised some other exception (swallowed by the outer
`except Exception` which logs and returns `None`). -/
inductive EmailOutcome where
  | noClient
  | sent
  | apiMismatch
  | sendFailed
deriving DecidableEq, Repr

/-- Whether `send_email` raises for a given delivery outcome.  Every
branch of app/core/email.py either returns normally or is wrapped in
`except Exception: ... return None`, so the answer is `false` for every
outcome: `send_email` never raises. -/
def send_email_raises (outcome : EmailOutcome) : Bool :=
  match outcome with
  | .noClient => false
  | .sent => false
  | .apiMismatch => false
  | .sendFailed => false

/-- The JSON body `forgot_password` answers with: the `message` field
plus the optional `token` field that the development-mode branch would
attach. -/
structure ForgotBody where
  message : String
  token : Option String
deriving DecidableEq, Repr

/-- The constant anti-enumeration body returned at the end of
`forgot_password`. -/
def forgotGenericBody : ForgotBody :=
  ⟨"If an account exists with this email, you will receive a password reset link", none⟩

/-- `forgot_password` (app/api/auth.py lines 245–287).  `freshToken` is
the value `secrets.token_urlsafe(32)` produced for this request and
`outcome` is what happens inside `send_email`.  When the email matches
a user, the row's `reset_token` is set and committed and `send_email`
is attempted; only if `send_email` raised would the handler evaluate
`settings.ENVIRONMENT` and — in a non-production environment — answer
with a body carrying the reset token. -/
def forgot_password (st : Store) (freshToken : String) (outcome : EmailOutcome)
    (email : String) : Store × Except ApiError ForgotBody :=
  match findByEmail st email with
  | some user =>
      let st' := putUser st { user with reset_token := some freshToken }
      if send_email_raises outcome then
        match settingsEnvironment with
        | .error e => (st', .error e)
        | .ok env =>
            if env ≠ "production" then
              (st', .ok ⟨"Password reset token generated. In production, this would be emailed.",
                         some freshToken⟩)
            else
              (st', .ok forgotGenericBody)
      else
        (st', .ok forgotGenericBody)
  | none => (st, .ok forgotGenericBody)

/-! ## Claim C1 — anti-enumeration of forgot_password -/

/-- Claim C1: for every store, a password-reset request for an email
with a matching user and one for an email with no matching user answer
with byte-identical success bodies — the constant anti-enumeration
message — and the body never carries the generated reset token (its
`token` field is `none`, whatever the fresh token was).  The
development-mode branch that would attach the token is unreachable:
`send_email` swallows every exception, and even if it raised, the
handler would crash on `settings.ENVIRONMENT` (no such field) instead
of returning a success body. -/
theorem forgot_password_anti_enumeration (st : Store) (e₁ e₂ t₁ t₂ : String)
    (o₁ o₂ : EmailOutcome) (u : User)
    (h₁ : findByEmail st e₁ = some u) (h₂ : findByEmail st e₂ = none) :
    (forgot_password st t₁ o₁ e₁).2 = .ok forgotGenericBody ∧
    (forgot_password st t₂ o₂ e₂).2 = .ok forgotGenericBody := by
  constructor
  · cases o₁ <;> simp [forgot_password, h₁, send_email_raises]
  · simp [forgot_password, h₂]

/-- Witness for `forgot_password_anti_enumeration`: a one-user store,
one request for the registered email and one for an unknown email. -/
theorem forgot_password_anti_enumeration_witness :
    (forgot_password ⟨[⟨1, "exists@x.com", get_password_hash 0 "oldpassword", true, false,
        false, none, none, 0, 0, none⟩]⟩ "freshtok" .sendFailed "exists@x.com").2 =
      .ok forgotGenericBody ∧
    (forgot_password ⟨[⟨1, "exists@x.com", get_password_hash 0 "oldpassword", true, false,
        false, none, none, 0, 0, none⟩]⟩ "freshtok" .sendFailed "nosuch@x.com").2 =
      .ok forgotGenericBody :=
  forgot_password_anti_enumeration _ "exists@x.com" "nosuch@x.com" "freshtok" "freshtok"
    .sendFailed .sendFailed
    ⟨1, "exists@x.com", get_password_hash 0 "oldpassword", true, false, false, none, none,
      0, 0, none⟩ (by decide) (by decide)

/-! ## Helper facts about `putUser` -/

/-- The row written by `putUser` is in the new table, provided the old
row it replaces was there. -/
theorem putUser_mem_updated (st : Store) (u u' : User) (hmem : u ∈ st.users)
    (hid : u'.id = u.id) : u' ∈ (putUser st u').users := by
  have h : (if u.id == u'.id then u' else u) ∈ (putUser st u').users :=
    List.mem_map_of_mem _ hmem
  rwa [hid, beq_self_eq_true, if_pos rfl] at h

/-- Rows with a different primary key are untouched by `putUser`. -/
theorem putUser_mem_other (st : Store) (u' v : User) (hmem : v ∈ st.users)
    (hne : v.id ≠ u'.id) : v ∈ (putUser st u').users := by
  have h : (if v.id == u'.id then u' else v) ∈ (putUser st u').users :=
    List.mem_map_of_mem _ hmem
  rwa [if_neg (by simp [hne])] at h

/-- Every row of the table after `putUser` is either the written row or
an old row with a different primary key. -/
theorem putUser_mem_elim (st : Store) (u' w : User) (hmem : w ∈ (putUser st u').users) :
    w = u' ∨ (w ∈ st.users ∧ w.id ≠ u'.id) := by
  rcases List.mem_map.mp hmem with ⟨v, hv, hw⟩
  by_cases hid : v.id == u'.id
  · left
    rw [if_pos hid] at hw
    exact hw.symm
  · right
    rw [if_neg hid] at hw
    exact hw ▸ ⟨hv, by simpa using hid⟩

/-! ## reset_password (app/api/auth.py lines 289–317) -/

/-- `reset_password`: checks `len(new_password) < 8` first, then looks
the user up by `reset_token`; on success stores the new hash and clears
the token in one commit.  `freshSalt` is the salt `pwd_context.hash`
draws for this request. -/
def reset_password (st : Store) (freshSalt : Nat) (token : String)
    (new_password : String) : Store × Except ApiError String :=
  if new_password.length < 8 then
    (st, .error (.http 400 "Password must be at least 8 characters long"))
  else
    match findByResetToken st token with
    | none => (st, .error (.http 400 "Invalid or expired reset token."))
    | some user =>
        let user' := { user with
          hashed_password := get_password_hash freshSalt new_password,
          reset_token := none }
        (putUser st user', .ok "Password has been reset successfully")

/-! ## Claim C6 — password reset completion -/

/-- Claim C6, counterexample.  The claim states that whenever no user
carries the supplied reset token the call fails with
`InvalidResetToken`.  The code checks the minimum-length policy
*before* the token lookup, so a call with an unknown token and a short
password fails with the weak-password error instead. -/
theorem reset_password_checks_length_before_token :
    findByResetToken ⟨[]⟩ "ghosttoken" = none ∧
    (reset_password ⟨[]⟩ 0 "ghosttoken" "short").2 =
      .error (.http 400 "Password must be at least 8 characters long") ∧
    (reset_password ⟨[]⟩ 0 "ghosttoken" "short").2 ≠
      .error (.http 400 "Invalid or expired reset token.") := by
  refine ⟨rfl, rfl, ?_⟩
  intro h
  rw [show (reset_password ⟨[]⟩ 0 "ghosttoken" "short").2 =
    Except.error (ApiError.http 400 "Password must be at least 8 characters long") from rfl] at h
  injection h with h1
  injection h1 with h2 h3
  exact absurd h3 (by decide)

/-- Claim C6, amended.  The new password is validated against the
minimum-length-8 policy first (`WeakPassword`); only then, if no user
carries the token, the call fails with `InvalidResetToken`.  On success
the user's `hashed_password` is replaced by the hash of the new
password and `reset_token` is cleared in the same commit — every other
field is unchanged — and an immediately repeated call with the same
token (and a policy-passing password) fails with `InvalidResetToken`.
The single-use conclusion assumes the token is carried by at most the
one user that was found, which the generator's 256-bit randomness
guarantees in the running system. -/
theorem reset_password_spec (st : Store) (salt salt' : Nat) (tok pw : String) :
    (pw.length < 8 →
      (reset_password st salt tok pw).2 =
        .error (.http 400 "Password must be at least 8 characters long")) ∧
    (¬ pw.length < 8 → findByResetToken st tok = none →
      (reset_password st salt tok pw).2 =
        .error (.http 400 "Invalid or expired reset token.")) ∧
    (∀ u, ¬ pw.length < 8 → findByResetToken st tok = some u →
      (∀ v ∈ st.users, v.reset_token = some tok → v.id = u.id) →
      (reset_password st salt tok pw).2 = .ok "Password has been reset successfully" ∧
      { u with hashed_password := get_password_hash salt pw, reset_token := none } ∈
        (reset_password st salt tok pw).1.users ∧
      (∀ v ∈ st.users, v.id ≠ u.id → v ∈ (reset_password st salt tok pw).1.users) ∧
      (reset_password (reset_password st salt tok pw).1 salt' tok pw).2 =
        .error (.http 400 "Invalid or expired reset token.")) := by
  refine ⟨fun hshort => by simp [reset_password, hshort], fun hlen hnone => ?_, ?_⟩
  · simp [reset_password, hlen, hnone]
  · intro u hlen hfound huniq
    have humem : u ∈ st.users := List.mem_of_find?_eq_some hfound
    have hres : reset_password st salt tok pw =
        (putUser st { u with hashed_password := get_password_hash salt pw, reset_token := none },
          .ok "Password has been reset successfully") := by
      simp [reset_password, hlen, hfound]
    refine ⟨by rw [hres], ?_, ?_, ?_⟩
    · rw [hres]
      exact putUser_mem_updated st u _ humem rfl
    · intro v hv hne
      rw [hres]
      exact putUser_mem_other st _ v hv hne
    · have hclear : findByResetToken (reset_password st salt tok pw).1 tok = none := by
        rw [hres]
        apply List.find?_eq_none.mpr
        intro w hw
        rcases putUser_mem_elim st _ w hw with hwu | ⟨hwold, hwid⟩
        · subst hwu
          simp
        · simp only [beq_eq_false_iff_ne, ne_eq, beq_iff_eq]
          intro hwtok
          exact hwid (huniq w hwold hwtok)
      revert hclear
      generalize (reset_password st salt tok pw).1 = st2
      intro hclear
      simp [reset_password, hlen, hclear]

/-- Witness for `reset_password_spec`: a one-user store whose user
carries the reset token, a policy-passing new password, and the
resulting successful reset plus failing repeat call. -/
theorem reset_password_spec_witness :
    (reset_password ⟨[⟨1, "u@x.com", get_password_hash 0 "oldpassword", true, false, false,
        none, some "tok123", 0, 0, none⟩]⟩ 5 "tok123" "newpassword").2 =
      .ok "Password has been reset successfully" ∧
    { (⟨1, "u@x.com", get_password_hash 0 "oldpassword", true, false, false,
        none, some "tok123", 0, 0, none⟩ : User) with
        hashed_password := get_password_hash 5 "newpassword", reset_token := none } ∈
      (reset_password ⟨[⟨1, "u@x.com", get_password_hash 0 "oldpassword", true, false, false,
        none, some "tok123", 0, 0, none⟩]⟩ 5 "tok123" "newpassword").1.users ∧
    (reset_password (reset_password ⟨[⟨1, "u@x.com", get_password_hash 0 "oldpassword", true,
        false, false, none, some "tok123", 0, 0, none⟩]⟩ 5 "tok123" "newpassword").1
        7 "tok123" "newpassword").2 =
      .error (.http 400 "Invalid or expired reset token.") := by
  have h := (reset_password_spec ⟨[⟨1, "u@x.com", get_password_hash 0 "oldpassword", true,
    false, false, none, some "tok123", 0, 0, none⟩]⟩ 5 7 "tok123" "newpassword").2.2
    ⟨1, "u@x.com", get_password_hash 0 "oldpassword", true, false, false, none,
      some "tok123", 0, 0, none⟩ (by decide) (by decide) (by decide)
  exact ⟨h.1, h.2.1, h.2.2.2⟩

/-! ## change_password (app/api/auth.py lines 498–538) -/

/-- `change_password`: the acting user comes from the
`current_active_user` dependency (inactive users are rejected by the
framework before the handler runs).  The handler verifies the current
password, then the length policy, then the no-op-change rule, and
finally persists the new hash.  A `verify_password` call on a malformed
stored hash would propagate passlib's `UnknownHashError` out of the
handler. -/
def change_password (st : Store) (actor : User) (current_password new_password : String)
    (freshSalt : Nat) : Store × Except ApiError String :=
  if actor.is_active = false then
    (st, .error (.http 401 "Unauthorized"))
  else
    match verify_password current_password actor.hashed_password with
    | .error _ => (st, .error .unknownHashError)
    | .ok false => (st, .error (.http 401 "Current password is incorrect"))
    | .ok true =>
        if new_password.length < 8 then
          (st, .error (.http 400 "New password must be at least 8 characters long"))
        else
          match verify_password new_password actor.hashed_password with
          | .error _ => (st, .error .unknownHashError)
          | .ok true =>
              (st, .error (.http 400 "New password cannot be the same as your current password"))
          | .ok false =>
              let actor' := { actor with hashed_password := get_password_hash freshSalt new_password }
              (putUser st actor', .ok "Password changed successfully")

/-! ## Claim C7 — authenticated password change -/

/-- Claim C7: for an authenticated (active) user, `change_password`
fails with `InvalidCredentials` when the current password does not
verify against the stored hash; otherwise with `WeakPassword` when the
new password is shorter than 8 characters; otherwise with
`PasswordUnchanged` when the new password verifies identically against
the existing hash; otherwise the new password is hashed and persisted
as the user's `hashed_password`. -/
theorem change_password_spec (st : Store) (actor : User) (cur new : String) (salt : Nat)
    (hact : actor.is_active = true) :
    (verify_password cur actor.hashed_password = .ok false →
      (change_password st actor cur new salt).2 =
        .error (.http 401 "Current password is incorrect")) ∧
    (verify_password cur actor.hashed_password = .ok true → new.length < 8 →
      (change_password st actor cur new salt).2 =
        .error (.http 400 "New password must be at least 8 characters long")) ∧
    (verify_password cur actor.hashed_password = .ok true → ¬ new.length < 8 →
      verify_password new actor.hashed_password = .ok true →
      (change_password st actor cur new salt).2 =
        .error (.http 400 "New password cannot be the same as your current password")) ∧
    (verify_password cur actor.hashed_password = .ok true → ¬ new.length < 8 →
      verify_password new actor.hashed_password = .ok false →
      (change_password st actor cur new salt).2 = .ok "Password changed successfully" ∧
      (actor ∈ st.users →
        { actor with hashed_password := get_password_hash salt new } ∈
          (change_password st actor cur new salt).1.users)) := by
  refine ⟨fun hbad => ?_, fun hok hshort => ?_, fun hok hlen hsame => ?_,
    fun hok hlen hdiff => ⟨?_, fun hmem => ?_⟩⟩
  · simp [change_password, hact, hbad]
  · simp [change_password, hact, hok, hshort]
  · simp [change_password, hact, hok, hlen, hsame]
  · simp [change_password, hact, hok, hlen, hdiff]
  · have hres : (change_password st actor cur new salt).1 =
        putUser st { actor with hashed_password := get_password_hash salt new } := by
      simp [change_password, hact, hok, hlen, hdiff]
    rw [hres]
    exact putUser_mem_updated st actor _ hmem rfl

/-- Witness for `change_password_spec`: a user whose stored hash is the
hash of "oldpassword"; each of the four branches at concrete inputs. -/
theorem change_password_spec_witness :
    (change_password ⟨[⟨1, "u@x.com", get_password_hash 0 "oldpassword", true, false, false,
        none, none, 0, 0, none⟩]⟩ ⟨1, "u@x.com", get_password_hash 0 "oldpassword", true,
        false, false, none, none, 0, 0, none⟩ "wrongpassword" "newpassword" 4).2 =
      .error (.http 401 "Current password is incorrect") ∧
    (change_password ⟨[⟨1, "u@x.com", get_password_hash 0 "oldpassword", true, false, false,
        none, none, 0, 0, none⟩]⟩ ⟨1, "u@x.com", get_password_hash 0 "oldpassword", true,
        false, false, none, none, 0, 0, none⟩ "oldpassword" "short" 4).2 =
      .error (.http 400 "New password must be at least 8 characters long") ∧
    (change_password ⟨[⟨1, "u@x.com", get_password_hash 0 "oldpassword", true, false, false,
        none, none, 0, 0, none⟩]⟩ ⟨1, "u@x.com", get_password_hash 0 "oldpassword", true,
        false, false, none, none, 0, 0, none⟩ "oldpassword" "oldpassword" 4).2 =
      .error (.http 400 "New password cannot be the same as your current password") ∧
    (change_password ⟨[⟨1, "u@x.com", get_password_hash 0 "oldpassword", true, false, false,
        none, none, 0, 0, none⟩]⟩ ⟨1, "u@x.com", get_password_hash 0 "oldpassword", true,
        false, false, none, none, 0, 0, none⟩ "oldpassword" "newpassword" 4).2 =
      .ok "Password changed successfully" := by
  have h := change_password_spec ⟨[⟨1, "u@x.com", get_password_hash 0 "oldpassword", true,
    false, false, none, none, 0, 0, none⟩]⟩ ⟨1, "u@x.com", get_password_hash 0 "oldpassword",
    true, false, false, none, none, 0, 0, none⟩ "wrongpassword" "newpassword" 4 rfl
  have h2 := change_password_spec ⟨[⟨1, "u@x.com", get_password_hash 0 "oldpassword", true,
    false, false, none, none, 0, 0, none⟩]⟩ ⟨1, "u@x.com", get_password_hash 0 "oldpassword",
    true, false, false, none, none, 0, 0, none⟩ "oldpassword" "short" 4 rfl
  have h3 := change_password_spec ⟨[⟨1, "u@x.com", get_password_hash 0 "oldpassword", true,
    false, false, none, none, 0, 0, none⟩]⟩ ⟨1, "u@x.com", get_password_hash 0 "oldpassword",
    true, false, false, none, none, 0, 0, none⟩ "oldpassword" "oldpassword" 4 rfl
  have h4 := change_password_spec ⟨[⟨1, "u@x.com", get_password_hash 0 "oldpassword", true,
    false, false, none, none, 0, 0, none⟩]⟩ ⟨1, "u@x.com", get_password_hash 0 "oldpassword",
    true, false, false, none, none, 0, 0, none⟩ "oldpassword" "newpassword" 4 rfl
  refine ⟨h.1 ?_, h2.2.1 ?_ ?_, h3.2.2.1 ?_ ?_ ?_, (h4.2.2.2 ?_ ?_ ?_).1⟩
  · rfl
  · rfl
  · decide
  · rfl
  · decide
  · rfl
  · rfl
  · decide
  · rfl

/-! ## update_user_me (app/api/auth.py lines 325–337)

`UserUpdate` (app/models/user.py lines 57–63) carries optional
`password`, `email`, `is_active`, `is_superuser`, `is_verified` and
`full_name` fields; `user_update.dict(exclude_unset=True)` yields
exactly the fields the caller supplied, and the handler does
`setattr(current_user, field, value)` for each of them, with no check
on the acting user beyond the `current_active_user` dependency. -/

/-- The PATCH /users/me payload; `none` marks a field the caller left
unset. -/
structure UserUpdate where
  password : Option String := none
  email : Option String := none
  is_active : Option Bool := none
  is_superuser : Option Bool := none
  is_verified : Option Bool := none
  full_name : Option String := none
deriving DecidableEq, Repr

/-- The `setattr` loop of `update_user_me` over
`user_update.dict(exclude_unset=True)`, in the payload's field order.
A supplied `password` value is set as a plain Python attribute that is
not a column of the `users` table, so it has no effect on the persisted
row and is dropped here. -/
def applyUserUpdate (u : User) (upd : UserUpdate) : User :=
  let u1 := match upd.email with
    | some v => { u with email := v }
    | none => u
  let u2 := match upd.is_active with
    | some v => { u1 with is_active := v }
    | none => u1
  let u3 := match upd.is_superuser with
    | some v => { u2 with is_superuser := v }
    | none => u2
  let u4 := match upd.is_verified with
    | some v => { u3 with is_verified := v }
    | none => u3
  match upd.full_name with
  | some v => { u4 with full_name := some v }
  | none => u4

/-- `update_user_me`: applies every supplied field to the acting user's
own row and commits it. -/
def update_user_me (st : Store) (actor : User) (upd : UserUpdate) :
    Store × Except ApiError User :=
  if actor.is_active = false then
    (st, .error (.http 401 "Unauthorized"))
  else
    let actor' := applyUserUpdate actor upd
    (putUser st actor', .ok actor')

/-- The `setattr` loop never touches the primary key. -/
theorem applyUserUpdate_id (u : User) (upd : UserUpdate) :
    (applyUserUpdate u upd).id = u.id := by
  cases he : upd.email <;> cases ha : upd.is_active <;> cases hs : upd.is_superuser <;>
    cases hv : upd.is_verified <;> cases hf : upd.full_name <;>
    simp [applyUserUpdate, he, ha, hs, hv, hf]

/-! ## Claim C3 — self-profile update writes privileged fields -/

/-- Claim C3: for every authenticated active user and every
PATCH /users/me payload that sets `is_superuser`, the handler writes
the supplied value into the user's `is_superuser` field with no
superuser privilege check — the acting user here is arbitrary and in
particular may have `is_superuser = false` while supplying
`is_superuser = some true` — and the same holds for `is_active` and
`is_verified`.  The updated row is returned and persisted. -/
theorem update_user_me_privilege_escalation (st : Store) (actor : User) (upd : UserUpdate)
    (hact : actor.is_active = true) :
    (update_user_me st actor upd).2 = .ok (applyUserUpdate actor upd) ∧
    (actor ∈ st.users → applyUserUpdate actor upd ∈ (update_user_me st actor upd).1.users) ∧
    (∀ b, upd.is_superuser = some b → (applyUserUpdate actor upd).is_superuser = b) ∧
    (∀ b, upd.is_active = some b → (applyUserUpdate actor upd).is_active = b) ∧
    (∀ b, upd.is_verified = some b → (applyUserUpdate actor upd).is_verified = b) := by
  refine ⟨by simp [update_user_me, hact], fun hmem => ?_, fun b hb => ?_, fun b hb => ?_,
    fun b hb => ?_⟩
  · have hres : (update_user_me st actor upd).1 = putUser st (applyUserUpdate actor upd) := by
      simp [update_user_me, hact]
    rw [hres]
    exact putUser_mem_updated st actor _ hmem (applyUserUpdate_id actor upd)
  · cases hv : upd.is_verified <;> cases hf : upd.full_name <;>
      simp [applyUserUpdate, hb, hv, hf]
  · cases hs : upd.is_superuser <;> cases hv : upd.is_verified <;> cases hf : upd.full_name <;>
      simp [applyUserUpdate, hb, hs, hv, hf]
  · cases hs : upd.is_superuser <;> cases hv : upd.is_verified <;> cases hf : upd.full_name <;>
      simp [applyUserUpdate, hb, hs, hv, hf]

/-- Witness for `update_user_me_privilege_escalation`: a non-superuser
active user supplies `is_superuser := true` (and `is_verified := true`)
and the resulting row is a superuser. -/
theorem update_user_me_privilege_escalation_witness :
    (applyUserUpdate ⟨1, "u@x.com", get_password_hash 0 "oldpassword", true, false, false,
        none, none, 0, 0, none⟩
      { is_superuser := some true, is_verified := some true }).is_superuser = true ∧
    (applyUserUpdate ⟨1, "u@x.com", get_password_hash 0 "oldpassword", true, false, false,
        none, none, 0, 0, none⟩
      { is_superuser := some true, is_verified := some true }).is_verified = true :=
  ⟨(update_user_me_privilege_escalation ⟨[]⟩ ⟨1, "u@x.com", get_password_hash 0 "oldpassword",
      true, false, false, none, none, 0, 0, none⟩
      { is_superuser := some true, is_verified := some true } rfl).2.2.1 true rfl,
   (update_user_me_privilege_escalation ⟨[]⟩ ⟨1, "u@x.com", get_password_hash 0 "oldpassword",
      true, false, false, none, none, 0, 0, none⟩
      { is_superuser := some true, is_verified := some true } rfl).2.2.2.2 true rfl⟩

/-! ## promote_user (app/api/auth.py lines 541–594) -/

/-- `promote_user` (PATCH /users/\x7buser_id\x7d/promote): the acting user
comes from `current_active_user` (no superuser requirement at the
dependency).  After the 404 lookup, the privilege gate passes when the
actor is a superuser or is the single user of the whole table promoting
or demoting themselves (`is_first_user` does not look at the requested
boolean).  A self-demotion additionally requires another superuser row
— counted with no `is_active` filter — and otherwise the target's
`is_superuser` is overwritten and committed. -/
def promote_user (st : Store) (actor : User) (user_id : Nat) (is_superuser : Bool) :
    Store × Except ApiError User :=
  if actor.is_active = false then
    (st, .error (.http 401 "Unauthorized"))
  else
    match findById st user_id with
    | none => (st, .error (.http 404 "User not found"))
    | some user =>
        let is_first_user := st.users.length == 1 && actor.id == user_id
        if !actor.is_superuser && !is_first_user then
          (st, .error (.http 403 "Not enough permissions"))
        else if actor.id == user_id && !is_superuser then
          if (st.users.filter (fun u => u.is_superuser && u.id != actor.id)).isEmpty then
            (st, .error (.http 400 "Cannot demote yourself when you are the only admin"))
          else
            let user' := { user with is_superuser := is_superuser }
            (putUser st user', .ok user')
        else
          let user' := { user with is_superuser := is_superuser }
          (putUser st user', .ok user')

/-! ## Claim C4 — last-admin protection on self-demotion -/

/-- Claim C4, counterexample.  The claim states that a superuser
demoting themselves succeeds only when at least one other *active*
superuser exists, and that an inactive superuser does not count.  In
the code the guard counts rows with `is_superuser == True` and
`id != current_user.id` with no `is_active` filter: with admin 1 active
and admin 2 deactivated, admin 1's self-demotion succeeds even though
no other active superuser exists. -/
theorem self_demotion_inactive_admin_counts :
    ((⟨[⟨1, "a@x.com", get_password_hash 0 "password1", true, true, true, none, none, 0, 0,
        none⟩, ⟨2, "b@x.com", get_password_hash 0 "password2", false, true, true, none, none,
        0, 0, none⟩]⟩ : Store).users.filter
      (fun u => u.is_superuser && u.is_active && u.id != 1)) = [] ∧
    (promote_user ⟨[⟨1, "a@x.com", get_password_hash 0 "password1", true, true, true, none,
        none, 0, 0, none⟩, ⟨2, "b@x.com", get_password_hash 0 "password2", false, true, true,
        none, none, 0, 0, none⟩]⟩ ⟨1, "a@x.com", get_password_hash 0 "password1", true, true,
        true, none, none, 0, 0, none⟩ 1 false).2 =
      .ok ⟨1, "a@x.com", get_password_hash 0 "password1", true, false, true, none, none, 0, 0,
        none⟩ := by
  constructor
  · rfl
  · rfl

/-- Claim C4, amended.  A superuser demoting themselves succeeds if and
only if at least one other superuser *row* exists — active or not: the
guard's query has no `is_active` filter — and otherwise fails with the
last-admin error. -/
theorem self_demotion_other_admin_row (st : Store) (actor target : User)
    (hact : actor.is_active = true) (hsup : actor.is_superuser = true)
    (hfind : findById st actor.id = some target) :
    ((st.users.filter (fun u => u.is_superuser && u.id != actor.id)) = [] →
      (promote_user st actor actor.id false).2 =
        .error (.http 400 "Cannot demote yourself when you are the only admin")) ∧
    ((st.users.filter (fun u => u.is_superuser && u.id != actor.id)) ≠ [] →
      (promote_user st actor actor.id false).2 = .ok { target with is_superuser := false }) := by
  constructor
  · intro hempty
    simp [promote_user, hact, hfind, hsup, hempty]
  · intro hne
    simp [promote_user, hact, hfind, hsup, List.isEmpty_iff, hne]

/-- Witness for `self_demotion_other_admin_row`: with a second (active)
admin present the self-demotion succeeds; with no other admin row it
fails. -/
theorem self_demotion_other_admin_row_witness :
    (promote_user ⟨[⟨1, "a@x.com", get_password_hash 0 "password1", true, true, true, none,
        none, 0, 0, none⟩, ⟨2, "b@x.com", get_password_hash 0 "password2", true, true, true,
        none, none, 0, 0, none⟩]⟩ ⟨1, "a@x.com", get_password_hash 0 "password1", true, true,
        true, none, none, 0, 0, none⟩ 1 false).2 =
      .ok ⟨1, "a@x.com", get_password_hash 0 "password1", true, false, true, none, none, 0, 0,
        none⟩ ∧
    (promote_user ⟨[⟨1, "a@x.com", get_password_hash 0 "password1", true, true, true, none,
        none, 0, 0, none⟩]⟩ ⟨1, "a@x.com", get_password_hash 0 "password1", true, true, true,
        none, none, 0, 0, none⟩ 1 false).2 =
      .error (.http 400 "Cannot demote yourself when you are the only admin") :=
  ⟨(self_demotion_other_admin_row ⟨[⟨1, "a@x.com", get_password_hash 0 "password1", true,
      true, true, none, none, 0, 0, none⟩, ⟨2, "b@x.com", get_password_hash 0 "password2",
      true, true, true, none, none, 0, 0, none⟩]⟩
      ⟨1, "a@x.com", get_password_hash 0 "password1", true, true, true, none, none, 0, 0, none⟩
      ⟨1, "a@x.com", get_password_hash 0 "password1", true, true, true, none, none, 0, 0, none⟩
      rfl rfl (by decide)).2 (by decide),
   (self_demotion_other_admin_row ⟨[⟨1, "a@x.com", get_password_hash 0 "password1", true,
      true, true, none, none, 0, 0, none⟩]⟩
      ⟨1, "a@x.com", get_password_hash 0 "password1", true, true, true, none, none, 0, 0, none⟩
      ⟨1, "a@x.com", get_password_hash 0 "password1", true, true, true, none, none, 0, 0, none⟩
      rfl rfl (by decide)).1 (by decide)⟩

/-! ## Claim C5 — the setSuperuser privilege gate -/

/-- Claim C5, counterexample.  The claim states the operation is
permitted exactly when the actor is a superuser or in the bootstrap
case "exactly one user exists, actor.id == target.id and
newValue == true", with everything else rejected as
`InsufficientPrivilege`.  In the code `is_first_user` ignores the
requested boolean: a sole non-superuser user requesting
`is_superuser = false` on themselves passes the privilege gate (no 403)
and instead reaches the last-admin guard, failing with its 400 error. -/
theorem bootstrap_gate_ignores_new_value :
    (promote_user ⟨[⟨1, "solo@x.com", get_password_hash 0 "solopassword", true, false, false,
        none, none, 0, 0, none⟩]⟩ ⟨1, "solo@x.com", get_password_hash 0 "solopassword", true,
        false, false, none, none, 0, 0, none⟩ 1 false).2 =
      .error (.http 400 "Cannot demote yourself when you are the only admin") ∧
    (promote_user ⟨[⟨1, "solo@x.com", get_password_hash 0 "solopassword", true, false, false,
        none, none, 0, 0, none⟩]⟩ ⟨1, "solo@x.com", get_password_hash 0 "solopassword", true,
        false, false, none, none, 0, 0, none⟩ 1 false).2 ≠
      .error (.http 403 "Not enough permissions") := by
  constructor
  · rfl
  · intro h
    rw [show (promote_user ⟨[⟨1, "solo@x.com", get_password_hash 0 "solopassword", true,
      false, false, none, none, 0, 0, none⟩]⟩ ⟨1, "solo@x.com",
      get_password_hash 0 "solopassword", true, false, false, none, none, 0, 0, none⟩
      1 false).2 =
      Except.error (ApiError.http 400 "Cannot demote yourself when you are the only admin")
      from rfl] at h
    injection h with h1
    injection h1 with h2 h3
    exact absurd h2 (by decide)

/-- Claim C5, amended.  For a found target, the privilege gate rejects
with `InsufficientPrivilege` (403) exactly when the actor is not a
superuser and the bootstrap condition "the whole table has exactly one
user and the actor targets themselves" fails — the requested boolean
plays no role in the gate.  In particular, with two or more users every
non-superuser attempt fails with 403, and a sole user passes the gate
even when requesting `false` (then failing later with the last-admin
error instead). -/
theorem promote_gate_characterization (st : Store) (actor target : User) (uid : Nat) (v : Bool)
    (hact : actor.is_active = true) (hfind : findById st uid = some target) :
    (promote_user st actor uid v).2 = .error (.http 403 "Not enough permissions") ↔
      (actor.is_superuser = false ∧ ¬ (st.users.length = 1 ∧ actor.id = uid)) := by
  constructor
  · intro h
    by_cases hsup : actor.is_superuser
    · exfalso
      revert h
      by_cases hself : actor.id == uid && !v
      · simp only [promote_user, hact, Bool.false_eq_true, if_false, hfind, hsup,
          Bool.not_true, Bool.false_and, Bool.if_false_left]
        simp only [hself, if_true]
        by_cases hemp : (st.users.filter (fun u => u.is_superuser && u.id != actor.id)).isEmpty
        · simp [hemp]
        · simp [hemp]
      · simp [promote_user, hact, hfind, hsup, hself]
    · by_cases hboot : st.users.length = 1 ∧ actor.id = uid
      · exfalso
        revert h
        have hfirst : (st.users.length == 1 && actor.id == uid) = true := by
          simp [hboot.1, hboot.2]
        by_cases hself : actor.id == uid && !v
        · simp only [promote_user, hact, Bool.false_eq_true, if_false, hfind, hfirst]
          simp only [Bool.not_true, Bool.and_false, Bool.not_false]
          by_cases hemp : (st.users.filter (fun u => u.is_superuser && u.id != actor.id)).isEmpty
          · simp [hself, hemp, hsup]
          · simp [hself, hemp, hsup]
        · simp [promote_user, hact, hfind, hfirst, hself, hsup]
      · exact ⟨by simp [hsup], hboot⟩
  · intro ⟨hsup, hboot⟩
    have hfirst : (st.users.length == 1 && actor.id == uid) = false := by
      cases hb : (st.users.length == 1 && actor.id == uid)
      · rfl
      · rw [Bool.and_eq_true, beq_iff_eq, beq_iff_eq] at hb
        exact absurd hb hboot
    simp [promote_user, hact, hfind, hsup, hfirst]

/-- Witness for `promote_gate_characterization`: in a two-user store a
non-superuser targeting themselves with `true` is rejected with 403. -/
theorem promote_gate_characterization_witness :
    (promote_user ⟨[⟨1, "a@x.com", get_password_hash 0 "password1", true, false, false, none,
        none, 0, 0, none⟩, ⟨2, "b@x.com", get_password_hash 0 "password2", true, false, false,
        none, none, 0, 0, none⟩]⟩ ⟨1, "a@x.com", get_password_hash 0 "password1", true, false,
        false, none, none, 0, 0, none⟩ 1 true).2 =
      .error (.http 403 "Not enough permissions") :=
  (promote_gate_characterization ⟨[⟨1, "a@x.com", get_password_hash 0 "password1", true,
      false, false, none, none, 0, 0, none⟩, ⟨2, "b@x.com", get_password_hash 0 "password2",
      true, false, false, none, none, 0, 0, none⟩]⟩
    ⟨1, "a@x.com", get_password_hash 0 "password1", true, false, false, none, none, 0, 0, none⟩
    ⟨1, "a@x.com", get_password_hash 0 "password1", true, false, false, none, none, 0, 0, none⟩
    1 true rfl (by decide)).mpr ⟨rfl, by decide⟩

/-! ## Response serialization (FastAPI `response_model=`)

FastAPI serializes a handler's return value through the declared
response model: exactly the model's fields appear in the JSON body.
The fastapi-users register router is mounted with `UserResponse`
(app/models/user.py lines 68–71: `UserBase` plus `id`, `created_at`,
`updated_at` — no `hashed_password`), while the custom admin endpoints
`get_user`, `list_users`, `create_user` and `promote_user` all declare
`response_model=User`, the full table model. -/

/-- A JSON field value of a serialized user row. -/
inductive FieldValue where
  | s (v : String)
  | b (v : Bool)
  | n (v : Nat)
  | o (v : Option String)
deriving DecidableEq, Repr

/-- All attributes of a `User` row, in model order. -/
def userDict (u : User) : List (String × FieldValue) :=
  [("id", .n u.id), ("email", .s u.email), ("hashed_password", .s u.hashed_password),
   ("is_active", .b u.is_active), ("is_superuser", .b u.is_superuser),
   ("is_verified", .b u.is_verified), ("verification_token", .o u.verification_token),
   ("reset_token", .o u.reset_token), ("created_at", .n u.created_at),
   ("updated_at", .n u.updated_at), ("full_name", .o u.full_name)]

/-- The fields of the `User` response model (the full table row). -/
def userModelFields : List String :=
  ["id", "email", "hashed_password", "is_active", "is_superuser", "is_verified",
   "verification_token", "reset_token", "created_at", "updated_at", "full_name"]

/-- The fields of the `UserResponse` response model. -/
def userResponseFields : List String :=
  ["email", "is_active", "is_superuser", "is_verified", "full_name", "id", "created_at",
   "updated_at"]

/-- Filtering a row through a response model. -/
def serializeWith (fields : List String) (u : User) : List (String × FieldValue) :=
  (userDict u).filter (fun kv => fields.contains kv.1)

/-- `get_user` (app/api/auth.py lines 427–443, GET /users/\x7buser_id\x7d):
the `current_superuser` dependency requires an active superuser, the
handler re-checks `is_superuser`, looks the target up by id, and
returns the row serialized through `response_model=User`. -/
def get_user (st : Store) (actor : User) (user_id : Nat) :
    Except ApiError (List (String × FieldValue)) :=
  if !(actor.is_active && actor.is_superuser) then
    .error (.http 403 "Forbidden")
  else if actor.is_superuser = false then
    .error (.http 403 "Not enough permissions")
  else
    match findById st user_id with
    | none => .error (.http 404 "User not found")
    | some u => .ok (serializeWith userModelFields u)

/-! ## Claim C2 — success payloads and hashedPassword -/

/-- Claim C2, evaluated at the failing input.  The claim states that
success payloads of the user-returning operations never include the
user's `hashedPassword`.  The custom admin endpoints declare
`response_model=User`, whose field set includes `hashed_password`
(together with `reset_token` and `verification_token`), so a superuser
fetching any user receives the stored bcrypt hash in the response body;
only the register router's `UserResponse` excludes it. -/
theorem get_user_leaks_hashed_password :
    ∃ payload,
      get_user ⟨[⟨1, "admin@x.com", get_password_hash 0 "adminpassword", true, true, true,
          none, none, 0, 0, none⟩, ⟨2, "victim@x.com", get_password_hash 1 "targetpassword",
          true, false, false, none, none, 0, 0, none⟩]⟩
        ⟨1, "admin@x.com", get_password_hash 0 "adminpassword", true, true, true, none, none,
          0, 0, none⟩ 2 = .ok payload ∧
      ("hashed_password", FieldValue.s (get_password_hash 1 "targetpassword")) ∈ payload ∧
      ("hashed_password", FieldValue.s (get_password_hash 1 "targetpassword")) ∉
        serializeWith userResponseFields ⟨2, "victim@x.com",
          get_password_hash 1 "targetpassword", true, false, false, none, none, 0, 0, none⟩ := by
  refine ⟨_, rfl, ?_, ?_⟩
  · decide
  · decide

/-! ## UserManager.create (app/api/auth.py lines 68–198) -/

/-- Python truthiness of the extracted password: `if not password`
is taken both when no password was found and when it is the empty
string. -/
def pyFalsy (p : Option String) : Bool :=
  match p with
  | none => true
  | some s => s.isEmpty

/-- A registration payload as `UserManager.create` receives it.
`password` is the value the attribute/dict probing of methods 1–4
yields (`none` when no password field is present). -/
structure UserCreatePayload where
  email : String
  password : Option String := none
  is_active : Option Bool := none
  is_superuser : Option Bool := none
  is_verified : Option Bool := none
  full_name : Option String := none
deriving DecidableEq, Repr

/-- The tail of `UserManager.create` once a password string is in hand:
`validate_password` (minimum length 8, raising `ValueError`), the
field defaults, the `safe` stripping of `is_superuser`/`is_verified`,
hashing, and the insert. -/
def manager_create_validated (payload : UserCreatePayload) (safe : Bool) (st : Store)
    (freshSalt newId : Nat) (password : String) : Store × Except ApiError User :=
  if password.length < 8 then
    (st, .error (.valueError "Password should be at least 8 characters"))
  else
    let is_active := payload.is_active.getD true
    let is_superuser := if safe then false else payload.is_superuser.getD false
    let is_verified := if safe then false else payload.is_verified.getD false
    let user : User := ⟨newId, payload.email, get_password_hash freshSalt password,
      is_active, is_superuser, is_verified, none, none, 0, 0, payload.full_name⟩
    (⟨st.users ++ [user]⟩, .ok user)

/-- `UserManager.create`: the password is probed from the payload
(methods 1–4), then from the raw request JSON (`requestJsonPassword`);
if it is still falsy the code evaluates `settings.ENVIRONMENT` — an
attribute `Settings` does not declare, so the access raises
`AttributeError` before either the development placeholder
(`os.getenv("DEFAULT_DEV_PASSWORD", "")`, modelled by
`devDefaultPassword`) or the `raise ValueError("Password is required")`
branch can run. -/
def manager_create (devDefaultPassword : Option String)
    (requestJsonPassword : Option String) (payload : UserCreatePayload) (safe : Bool)
    (st : Store) (freshSalt newId : Nat) : Store × Except ApiError User :=
  let extracted :=
    if pyFalsy payload.password then requestJsonPassword else payload.password
  if pyFalsy extracted then
    match settingsEnvironment with
    | .error e => (st, .error e)
    | .ok env =>
        if env == "development" then
          manager_create_validated payload safe st freshSalt newId
            (devDefaultPassword.getD "")
        else
          (st, .error (.valueError "Password is required"))
  else
    manager_create_validated payload safe st freshSalt newId (extracted.getD "")

/-! ## Claim C9 — missing password fails closed -/

/-- Claim C9, evaluated.  Whenever no password can be extracted from
the payload or the raw request body, `UserManager.create` fails closed
in *every* deployment mode and configuration — the store is unchanged
and no user is created, so no default password is ever substituted.
The failure, however, is the `AttributeError` from the undeclared
`settings.ENVIRONMENT` field rather than the structured
missing-credential `ValueError` the branch was written to raise: both
the production `raise ValueError("Password is required")` and the
development placeholder (which, as written, sources from the
`DEFAULT_DEV_PASSWORD` environment variable, not a hardcoded literal)
are unreachable. -/
theorem create_missing_password_fails_closed
    (devDefaultPassword requestJsonPassword : Option String) (payload : UserCreatePayload)
    (safe : Bool) (st : Store) (freshSalt newId : Nat)
    (hp : pyFalsy payload.password = true) (hr : pyFalsy requestJsonPassword = true) :
    manager_create devDefaultPassword requestJsonPassword payload safe st freshSalt newId =
      (st, .error (.attributeError "ENVIRONMENT")) := by
  simp [manager_create, hp, hr, settingsEnvironment]

/-- Witness for `create_missing_password_fails_closed`: a payload with
no password at all, an empty store, and a configured development
placeholder that is nevertheless never used. -/
theorem create_missing_password_fails_closed_witness :
    manager_create (some "devdefaultpw") none { email := "new@x.com" } true ⟨[]⟩ 0 1 =
      (⟨[]⟩, .error (.attributeError "ENVIRONMENT")) :=
  create_missing_password_fails_closed (some "devdefaultpw") none { email := "new@x.com" }
    true ⟨[]⟩ 0 1 rfl rfl

end Repport
